import Mathlib

/-!
Shallow embedding of the transport abstraction layer of `src/helper/visa.py`
(the "visa" shim unifying GPIB, serial and Ethernet instrument access), and
proofs of the specification claims about it.

Byte strings are modelled as `List Char`, Python floats as `ℚ`, and the
fallible factory as `Except`.
-/

namespace InstrumentCom

/-- The whitespace characters stripped by Python's `str.rstrip()`
(space, tab, newline, carriage return, vertical tab, form feed). -/
def pyIsSpace (c : Char) : Bool :=
  c == ' ' || c == '\t' || c == '\n' || c == '\r' || c == '\x0b' || c == '\x0c'

/-- Python `s.rstrip()`: drop the longest whitespace suffix. -/
def pyRstrip (l : List Char) : List Char :=
  (l.reverse.dropWhile pyIsSpace).reverse

/-- The transport timeout codes of the `gpib` module
(`gpib.TNONE`, `gpib.T10us`, ..., `gpib.T1000s`). -/
inductive TimeoutCode where
  | TNONE | T10us | T30us | T100us | T300us
  | T1ms | T3ms | T10ms | T30ms | T100ms | T300ms
  | T1s | T3s | T10s | T30s | T100s | T300s | T1000s
  deriving DecidableEq

/-- The table `gpib_timeout_list` of `get_gpib_timeout` in
`src/helper/visa.py`: (threshold in seconds, transport timeout code),
in ascending threshold order. -/
def gpib_timeout_list : List (ℚ × TimeoutCode) :=
  [(0, .TNONE),
   (10/1000000, .T10us),
   (30/1000000, .T30us),
   (100/1000000, .T100us),
   (300/1000000, .T300us),
   (1/1000, .T1ms),
   (3/1000, .T3ms),
   (10/1000, .T10ms),
   (30/1000, .T30ms),
   (100/1000, .T100ms),
   (300/1000, .T300ms),
   (1, .T1s),
   (3, .T3s),
   (10, .T10s),
   (30, .T30s),
   (100, .T100s),
   (300, .T300s),
   (1000, .T1000s)]

/-- The scanning loop of `get_gpib_timeout`: return the code of the first
table entry whose threshold is `>=` the requested value; fall through to
`gpib.T1000s` when none qualifies. -/
def lookupTimeout (t : ℚ) : List (ℚ × TimeoutCode) → TimeoutCode
  | [] => .T1000s
  | (val, res) :: rest => if t ≤ val then res else lookupTimeout t rest

/-- `get_gpib_timeout` of `src/helper/visa.py`. -/
def get_gpib_timeout (timeout : ℚ) : TimeoutCode :=
  lookupTimeout timeout gpib_timeout_list

theorem lookupTimeout_first (t : ℚ) :
    ∀ l : List (ℚ × TimeoutCode), l.Pairwise (fun p q => p.1 < q.1) →
    (∃ p ∈ l, t ≤ p.1 ∧ lookupTimeout t l = p.2 ∧
        ∀ q ∈ l, t ≤ q.1 → p.1 ≤ q.1) ∨
    ((∀ p ∈ l, p.1 < t) ∧ lookupTimeout t l = .T1000s) := by
  intro l
  induction l with
  | nil =>
    intro _
    exact Or.inr ⟨by simp, rfl⟩
  | cons hd rest ih =>
    intro hpw
    rw [List.pairwise_cons] at hpw
    obtain ⟨hlt, hrest⟩ := hpw
    by_cases hle : t ≤ hd.1
    · refine Or.inl ⟨hd, List.mem_cons_self hd rest, hle, ?_, ?_⟩
      · simp only [lookupTimeout, hle, if_pos]
      · intro q hq _
        rcases List.mem_cons.mp hq with hq | hq
        · rw [hq]
        · exact le_of_lt (hlt q hq)
    · have hstep : lookupTimeout t (hd :: rest) = lookupTimeout t rest := by
        simp only [lookupTimeout, hle, if_neg, not_false_iff]
      rcases ih hrest with ⟨p, hp, hple, heq, hmin⟩ | ⟨hall, heq⟩
      · refine Or.inl ⟨p, List.mem_cons_of_mem hd hp, hple, hstep ▸ heq, ?_⟩
        intro q hq hqle
        rcases List.mem_cons.mp hq with hq | hq
        · exact absurd (hq ▸ hqle) hle
        · exact hmin q hq hqle
      · refine Or.inr ⟨?_, hstep ▸ heq⟩
        intro p hp
        rcases List.mem_cons.mp hp with hp | hp
        · exact hp ▸ lt_of_not_le hle
        · exact hall p hp

theorem gpib_timeout_list_sorted :
    gpib_timeout_list.Pairwise (fun p q => p.1 < q.1) := by
  simp only [gpib_timeout_list, List.pairwise_cons, List.mem_cons,
    List.not_mem_nil, List.Pairwise.nil, and_true]
  norm_num

theorem gpib_timeout_list_le_1000 :
    ∀ p ∈ gpib_timeout_list, p.1 ≤ 1000 := by
  intro p hp
  simp only [gpib_timeout_list, List.mem_cons, List.not_mem_nil, or_false] at hp
  rcases hp with h | h | h | h | h | h | h | h | h | h | h | h | h | h | h | h | h | h <;>
    rw [h] <;> norm_num

theorem max_entry_mem : ((1000 : ℚ), TimeoutCode.T1000s) ∈ gpib_timeout_list := by
  simp [gpib_timeout_list]

/-- C1: for every requested timeout `t ≤ 1000`, `get_gpib_timeout` returns
the code of the smallest table threshold that is `≥ t`; for every `t`
greater than 1000 seconds it returns the 1000-second code. -/
theorem get_gpib_timeout_smallest_threshold (t : ℚ) :
    (t ≤ 1000 → ∃ p ∈ gpib_timeout_list, t ≤ p.1 ∧ get_gpib_timeout t = p.2 ∧
        ∀ q ∈ gpib_timeout_list, t ≤ q.1 → p.1 ≤ q.1) ∧
    (1000 < t → get_gpib_timeout t = .T1000s) := by
  rcases lookupTimeout_first t gpib_timeout_list gpib_timeout_list_sorted with
    ⟨p, hp, hple, heq, hmin⟩ | ⟨hall, heq⟩
  · constructor
    · intro _
      exact ⟨p, hp, hple, heq, hmin⟩
    · intro hgt
      have := gpib_timeout_list_le_1000 p hp
      exact absurd (lt_of_lt_of_le hgt hple) (not_lt.mpr this)
  · constructor
    · intro hle
      have h1 : (1000 : ℚ) < t := hall _ max_entry_mem
      exact absurd (lt_of_lt_of_le h1 hle) (lt_irrefl 1000)
    · intro _
      exact heq

/-- Witness for C1 at the concrete input t = 2: the smallest threshold
`≥ 2` is 3 and `get_gpib_timeout 2 = T3s`. -/
theorem get_gpib_timeout_smallest_threshold_witness :
    (2 : ℚ) ≤ 1000 ∧
    ∃ p ∈ gpib_timeout_list, (2 : ℚ) ≤ p.1 ∧ get_gpib_timeout 2 = p.2 ∧
      ∀ q ∈ gpib_timeout_list, (2 : ℚ) ≤ q.1 → p.1 ≤ q.1 :=
  ⟨by norm_num, (get_gpib_timeout_smallest_threshold 2).1 (by norm_num)⟩

/-- C9: every requested timeout `t ≤ 0` (negative included) maps to the
no-timeout code `gpib.TNONE`, the 0-second table entry. -/
theorem get_gpib_timeout_nonpos (t : ℚ) (h : t ≤ 0) :
    get_gpib_timeout t = .TNONE := by
  simp only [get_gpib_timeout, gpib_timeout_list, lookupTimeout, h, if_pos]

/-- Witness for C9 at the concrete negative input t = -5. -/
theorem get_gpib_timeout_nonpos_witness :
    (-5 : ℚ) ≤ 0 ∧ get_gpib_timeout (-5) = .TNONE :=
  ⟨by norm_num, get_gpib_timeout_nonpos (-5) (by norm_num)⟩

/-! ## Instrument handles: termination characters and write -/

/-- The mutable state set up by the `__init__` chain of the instrument
classes: the only field the transport contract itself stores is
`term_chars`. -/
structure InstrumentFields where
  term_chars : List Char
  deriving DecidableEq

/-- `GenericInstrument.__init__`: sets `term_chars` to `"\n"`. -/
def GenericInstrument.fields : InstrumentFields := ⟨['\n']⟩

/-- `EthernetInstrument.__init__`: calls the generic init and then sets
`term_chars = "\n"`. -/
def EthernetInstrument.fields : InstrumentFields :=
  { GenericInstrument.fields with term_chars := ['\n'] }

/-- `GpibInstrument.__init__`: calls the generic init and then sets
`term_chars = "\n"`. -/
def GpibInstrument.fields : InstrumentFields :=
  { GenericInstrument.fields with term_chars := ['\n'] }

/-- `SerialInstrument.__init__`: calls the generic init and then sets
`term_chars = "\r"`. -/
def SerialInstrument.fields : InstrumentFields :=
  { GenericInstrument.fields with term_chars := ['\r'] }

/-- `EthernetInstrument.write`: the bytes handed to
`connection.sendall(query + self.term_chars)`. -/
def EthernetInstrument.write (self : InstrumentFields) (query : List Char) :
    List Char :=
  query ++ self.term_chars

/-- `GpibInstrument.write`: the bytes handed to
`gpib.write(device, query + self.term_chars)`. -/
def GpibInstrument.write (self : InstrumentFields) (query : List Char) :
    List Char :=
  query ++ self.term_chars

/-- `SerialInstrument.write`: the bytes handed to
`device.write(query + self.term_chars)`. -/
def SerialInstrument.write (self : InstrumentFields) (query : List Char) :
    List Char :=
  query ++ self.term_chars

/-- C3: on a freshly constructed handle, `write(c)` transmits exactly the
bytes of `c` followed by the handle's fixed termination sequence —
`"\n"` for GPIB and Ethernet, `"\r"` for serial. -/
theorem write_appends_term_chars (c : List Char) :
    GpibInstrument.write GpibInstrument.fields c = c ++ ['\n'] ∧
    EthernetInstrument.write EthernetInstrument.fields c = c ++ ['\n'] ∧
    SerialInstrument.write SerialInstrument.fields c = c ++ ['\r'] :=
  ⟨rfl, rfl, rfl⟩

/-! ## `ask` as write-then-read over an abstract transport -/

/-- The dynamic-dispatch surface `ask` uses: `self.write` transmits bytes
and updates the transport state, `self.read` produces a reply and the
remaining state. -/
structure Transport (σ : Type) where
  write : σ → List Char → σ
  read : σ → List Char × σ

/-- `GenericInstrument.ask`: `self.write(query)` followed by
`return self.read()`. -/
def GenericInstrument.ask {σ : Type} (T : Transport σ) (s : σ)
    (query : List Char) : List Char × σ :=
  T.read (T.write s query)

/-- Drop `suf` from the end of `l` when `l` ends with it
(Python `l[:-len(suf)]` guarded by `l.endswith(suf)`). -/
def dropSuffix (l suf : List Char) : List Char :=
  if suf.isSuffixOf l then l.take (l.length - suf.length) else l

/-- A stub transport whose state holds the last transmitted bytes: its
write appends the termination sequence like the real transports, and its
read echoes the transmitted bytes with the termination sequence removed. -/
def echoStub (term : List Char) : Transport (List Char) where
  write _ query := query ++ term
  read s := (dropSuffix s term, s)

theorem dropSuffix_append (q term : List Char) :
    dropSuffix (q ++ term) term = q := by
  have hsuf : term.isSuffixOf (q ++ term) := by
    rw [List.isSuffixOf_iff_suffix]
    exact ⟨q, rfl⟩
  simp only [dropSuffix, hsuf, if_pos, List.length_append,
    Nat.add_sub_cancel, List.take_left]

/-- C4: `ask(c)` is exactly `write(c)` followed by `read()`, and on a stub
transport that echoes the written bytes minus the termination sequence
back as the read reply, `ask(c)` returns exactly `c`. -/
theorem ask_echo_roundtrip (term c s : List Char) :
    GenericInstrument.ask (echoStub term) s c =
      (echoStub term).read ((echoStub term).write s c) ∧
    (GenericInstrument.ask (echoStub term) s c).1 = c :=
  ⟨rfl, dropSuffix_append c term⟩

/-! ## Packet reads (GPIB, Ethernet) -/

/-- One receive call on a byte source: deliver at most `n` of the pending
bytes and leave the rest pending (`connection.recv(n)` /
`gpib.read(device, n)`). -/
def recvUpTo (n : Nat) (pending : List Char) : List Char × List Char :=
  (pending.take n, pending.drop n)

/-- `EthernetInstrument.read`: `connection.recv(512).rstrip()` — a single
receive of up to 512 bytes, its buffer returned with trailing whitespace
stripped; the second component is what the single call left unconsumed. -/
def EthernetInstrument.read (pending : List Char) : List Char × List Char :=
  let r := recvUpTo 512 pending
  (pyRstrip r.1, r.2)

/-- `GpibInstrument.read`: `gpib.read(device, 512).rstrip()` — a single
bus read of up to 512 bytes, its buffer returned with trailing whitespace
stripped; the second component is what the single call left unconsumed. -/
def GpibInstrument.read (pending : List Char) : List Char × List Char :=
  let r := recvUpTo 512 pending
  (pyRstrip r.1, r.2)

theorem pyRstrip_length_le (l : List Char) : (pyRstrip l).length ≤ l.length := by
  simp only [pyRstrip, List.length_reverse]
  calc (l.reverse.dropWhile pyIsSpace).length
      ≤ l.reverse.length := (List.dropWhile_sublist pyIsSpace).length_le
    _ = l.length := List.length_reverse l

/-- C7: the packet-transport reads perform exactly one receive call of at
most 512 bytes — the reply is the first buffer with trailing whitespace
stripped (hence at most 512 bytes long), and any pending bytes beyond the
first 512 are left unconsumed rather than fetched by a second receive. -/
theorem packet_read_single_recv (pending : List Char)
    (h : 512 < pending.length) :
    EthernetInstrument.read pending =
      (pyRstrip (pending.take 512), pending.drop 512) ∧
    GpibInstrument.read pending =
      (pyRstrip (pending.take 512), pending.drop 512) ∧
    (EthernetInstrument.read pending).1.length ≤ 512 ∧
    (EthernetInstrument.read pending).2 ≠ [] := by
  refine ⟨rfl, rfl, ?_, ?_⟩
  · calc (EthernetInstrument.read pending).1.length
        ≤ (pending.take 512).length := pyRstrip_length_le _
      _ ≤ 512 := by simp [List.length_take]
  · simp only [EthernetInstrument.read, recvUpTo, ne_eq,
      List.drop_eq_nil_iff, not_le]
    exact h

/-- Witness for C7 on a concrete 513-byte pending buffer: the read is
truncated to the first 512 bytes and one byte is left unconsumed. -/
theorem packet_read_single_recv_witness :
    512 < (List.replicate 513 'a').length ∧
    EthernetInstrument.read (List.replicate 513 'a') =
      (pyRstrip ((List.replicate 513 'a').take 512),
       (List.replicate 513 'a').drop 512) ∧
    GpibInstrument.read (List.replicate 513 'a') =
      (pyRstrip ((List.replicate 513 'a').take 512),
       (List.replicate 513 'a').drop 512) ∧
    (EthernetInstrument.read (List.replicate 513 'a')).1.length ≤ 512 ∧
    (EthernetInstrument.read (List.replicate 513 'a')).2 ≠ [] :=
  ⟨by rw [List.length_replicate]; norm_num,
   packet_read_single_recv (List.replicate 513 'a')
     (by rw [List.length_replicate]; norm_num)⟩

/-! ## Serial read: accumulate until the suffix is the termination sequence -/

/-- Python `message[-len(term):] == term`, the loop condition of
`SerialInstrument.read` (negated there). For the nonempty `term` used by
the serial transport, `message[-n:]` is the last `min(n, len)` characters,
i.e. `drop (len - n)`. -/
def pyTailEq (message term : List Char) : Bool :=
  message.drop (message.length - term.length) == term

/-- The accumulation loop of `SerialInstrument.read`, with explicit fuel:
while the tail of `message` differs from `term_chars`, append the next
chunk delivered by `device.read()` (the `i`-th call is `dev i`); on exit
return `message.rstrip()`. `none` means the fuel ran out with the loop
still running. -/
def SerialInstrument.readAux (self : InstrumentFields) (dev : Nat → List Char) :
    Nat → Nat → List Char → Option (List Char)
  | 0, _, message =>
      if pyTailEq message self.term_chars then some (pyRstrip message) else none
  | fuel + 1, i, message =>
      if pyTailEq message self.term_chars then some (pyRstrip message)
      else SerialInstrument.readAux self dev fuel (i + 1) (message ++ dev i)

/-- `SerialInstrument.read` on a fresh serial handle: start from the empty
accumulator and the first port chunk. -/
def SerialInstrument.read (dev : Nat → List Char) (fuel : Nat) :
    Option (List Char) :=
  SerialInstrument.readAux SerialInstrument.fields dev fuel 0 []

/-- Concatenation of the `m` chunks `dev i, dev (i+1), ..., dev (i+m-1)`. -/
def chunksFrom (dev : Nat → List Char) (i : Nat) : Nat → List Char
  | 0 => []
  | m + 1 => dev i ++ chunksFrom dev (i + 1) m

/-- The accumulator contents after the first `k` port chunks. -/
def accumulated (dev : Nat → List Char) (k : Nat) : List Char :=
  chunksFrom dev 0 k

theorem readAux_stops_at_first_tail_match (dev : Nat → List Char) :
    ∀ (m fuel i : Nat) (message : List Char),
    pyTailEq (message ++ chunksFrom dev i m) ['\r'] = true →
    (∀ j < m, pyTailEq (message ++ chunksFrom dev i j) ['\r'] = false) →
    m ≤ fuel →
    SerialInstrument.readAux SerialInstrument.fields dev fuel i message =
      some (pyRstrip (message ++ chunksFrom dev i m)) := by
  intro m
  induction m with
  | zero =>
    intro fuel i message hterm _ _
    rw [chunksFrom, List.append_nil] at hterm ⊢
    cases fuel with
    | zero => simp [SerialInstrument.readAux, SerialInstrument.fields,
        GenericInstrument.fields, hterm]
    | succ f => simp [SerialInstrument.readAux, SerialInstrument.fields,
        GenericInstrument.fields, hterm]
  | succ m ih =>
    intro fuel i message hterm hfirst hfuel
    have h0 : pyTailEq message ['\r'] = false := by
      have := hfirst 0 (Nat.succ_pos m)
      rwa [chunksFrom, List.append_nil] at this
    cases fuel with
    | zero => exact absurd hfuel (by omega)
    | succ f =>
      rw [SerialInstrument.readAux]
      have hne : pyTailEq message SerialInstrument.fields.term_chars = false := h0
      rw [hne]
      simp only [Bool.false_eq_true, if_false]
      have hassoc : ∀ n, (message ++ dev i) ++ chunksFrom dev (i + 1) n =
          message ++ chunksFrom dev i (n + 1) := by
        intro n
        rw [List.append_assoc]
        rfl
      have hterm2 : pyTailEq ((message ++ dev i) ++ chunksFrom dev (i + 1) m)
          ['\r'] = true := by rw [hassoc]; exact hterm
      have hfirst2 : ∀ j < m,
          pyTailEq ((message ++ dev i) ++ chunksFrom dev (i + 1) j) ['\r'] = false := by
        intro j hj
        rw [hassoc]
        exact hfirst (j + 1) (by omega)
      rw [ih f (i + 1) (message ++ dev i) hterm2 hfirst2 (by omega), hassoc]

/-- C2 (amended): if the accumulated port bytes first end with the
termination sequence `"\r"` after the `k`-th chunk, then (given fuel for
those `k` chunks) `SerialInstrument.read` returns exactly then, yielding
the accumulated bytes with all trailing whitespace stripped — which
removes the termination sequence together with any whitespace directly
before it. -/
theorem serial_read_returns_at_first_term (dev : Nat → List Char)
    (k fuel : Nat)
    (hterm : pyTailEq (accumulated dev k) ['\r'] = true)
    (hfirst : ∀ j < k, pyTailEq (accumulated dev j) ['\r'] = false)
    (hfuel : k ≤ fuel) :
    SerialInstrument.read dev fuel = some (pyRstrip (accumulated dev k)) :=
  readAux_stops_at_first_tail_match dev k fuel 0 [] hterm hfirst hfuel

/-- A demonstration chunk stream delivering `"DATA\r"` in two chunks. -/
def demoChunks : Nat → List Char
  | 0 => ['D', 'A']
  | 1 => ['T', 'A', '\r']
  | _ => []

/-- Witness for amended C2: with chunks `"DA"`, `"TA\r"`, the read returns
after the second chunk and a reply of `"DATA\r"` yields `"DATA"`. -/
theorem serial_read_returns_at_first_term_witness :
    SerialInstrument.read demoChunks 2 =
      some (pyRstrip (accumulated demoChunks 2)) ∧
    pyRstrip (accumulated demoChunks 2) = ['D', 'A', 'T', 'A'] :=
  ⟨serial_read_returns_at_first_term demoChunks 2 2 (by decide)
      (by decide) (by decide),
   by decide⟩

/-- A chunk stream whose single reply `"DATA \r"` carries whitespace right
before the terminator. -/
def spaceTermChunks : Nat → List Char
  | _ => ['D', 'A', 'T', 'A', ' ', '\r']

/-- Counterexample to C2 as stated: on the reply `"DATA \r"` the code
returns `"DATA"` (`rstrip()` removes all trailing whitespace), not the
preceding bytes `"DATA "` with only the termination sequence stripped. -/
theorem serial_read_rstrip_counterexample :
    accumulated spaceTermChunks 1 = ['D', 'A', 'T', 'A', ' ', '\r'] ∧
    SerialInstrument.read spaceTermChunks 1 = some ['D', 'A', 'T', 'A'] ∧
    SerialInstrument.read spaceTermChunks 1 ≠ some ['D', 'A', 'T', 'A', ' '] := by
  decide

theorem readAux_no_tail_match_none (dev : Nat → List Char) :
    ∀ (fuel i : Nat) (message : List Char),
    (∀ m, pyTailEq (message ++ chunksFrom dev i m) ['\r'] = false) →
    SerialInstrument.readAux SerialInstrument.fields dev fuel i message = none := by
  intro fuel
  induction fuel with
  | zero =>
    intro i message h
    have h0 : pyTailEq message ['\r'] = false := by
      have := h 0
      rwa [chunksFrom, List.append_nil] at this
    simp [SerialInstrument.readAux, SerialInstrument.fields,
      GenericInstrument.fields, h0]
  | succ f ih =>
    intro i message h
    have h0 : pyTailEq message ['\r'] = false := by
      have := h 0
      rwa [chunksFrom, List.append_nil] at this
    rw [SerialInstrument.readAux]
    have hne : pyTailEq message SerialInstrument.fields.term_chars = false := h0
    rw [hne]
    simp only [Bool.false_eq_true, if_false]
    apply ih
    intro m
    have := h (m + 1)
    rw [chunksFrom, ← List.append_assoc] at this
    exact this

/-- C8: if no finite accumulation of port chunks ever ends with the
termination sequence `"\r"` (a silent or non-terminating device), the
serial read loop never returns: for every amount of fuel the loop is
still running — the layer has no timeout escape of its own, and an empty
port-level chunk just continues the loop. -/
theorem serial_read_silent_never_returns (dev : Nat → List Char)
    (h : ∀ k, pyTailEq (accumulated dev k) ['\r'] = false) (fuel : Nat) :
    SerialInstrument.read dev fuel = none :=
  readAux_no_tail_match_none dev fuel 0 [] h

theorem chunksFrom_silent (i : Nat) :
    ∀ k, chunksFrom (fun _ => []) i k = [] := by
  intro k
  induction k generalizing i with
  | zero => rfl
  | succ k ih => rw [chunksFrom, ih (i + 1)]; rfl

/-- Witness for C8: a silent device whose every port read returns the
empty chunk never makes `read` return, here at fuel 1000. -/
theorem serial_read_silent_never_returns_witness :
    SerialInstrument.read (fun _ => []) 1000 = none :=
  serial_read_silent_never_returns (fun _ => [])
    (fun k => by rw [accumulated, chunksFrom_silent 0 k]; rfl) 1000

/-! ## The factory `instrument` and its address parsing -/

/-- Python `s.split("::")`: greedy left-to-right scan for the two-colon
separator, accumulating the current token (in reverse). -/
def splitDoubleColonAux (acc : List Char) : List Char → List (List Char)
  | [] => [acc.reverse]
  | ':' :: ':' :: rest => acc.reverse :: splitDoubleColonAux [] rest
  | c :: rest => splitDoubleColonAux (c :: acc) rest

/-- Python `inst.split("::")`. -/
def splitOnDoubleColon (s : List Char) : List (List Char) :=
  splitDoubleColonAux [] s

/-- Python `address.split(":")`. -/
def splitColonAux (acc : List Char) : List Char → List (List Char)
  | [] => [acc.reverse]
  | ':' :: rest => acc.reverse :: splitColonAux [] rest
  | c :: rest => splitColonAux (c :: acc) rest

/-- Python `address.split(":")`. -/
def splitOnColon (s : List Char) : List (List Char) :=
  splitColonAux [] s

/-- Parse a nonempty all-digit token as a natural number. -/
def parseNatDigits : List Char → Option Nat
  | [] => none
  | l =>
    if l.all Char.isDigit then
      some (l.foldl (fun a c => a * 10 + (c.toNat - 48)) 0)
    else none

/-- Python `int(string)`: optional surrounding whitespace, optional sign,
then decimal digits; anything else raises `ValueError`, modelled as
`none`. -/
def pyInt (l : List Char) : Option Int :=
  let t := ((l.dropWhile pyIsSpace).reverse.dropWhile pyIsSpace).reverse
  match t with
  | '-' :: ds => (parseNatDigits ds).map (fun n => -(n : Int))
  | '+' :: ds => (parseNatDigits ds).map (fun n => (n : Int))
  | ds => (parseNatDigits ds).map (fun n => (n : Int))

/-- The errors `instrument` can raise: `malformed` is the
`RuntimeError(inst + " is not a legal instrument")` from the failed
two-element unpack of `inst.split("::")`; `unsupported` is the
`ValueError("type not found " + inst)` of the final dispatch arm;
`etherSplit` and `badInt` are the uncaught `ValueError`s of
`address.split(":")` unpacking and of `int(...)`. -/
inductive InstrErr where
  | malformed (inst : List Char)
  | unsupported (inst : List Char)
  | etherSplit (address : List Char)
  | badInt (s : List Char)
  deriving DecidableEq

/-- The handle `instrument` constructs: a GPIB device on board 0 at an
integer address with its transport timeout code set, an Ethernet socket
connected to host and port with the given timeout, or a serial port
opened (at the fixed 9600-8-N-2 configuration) with the given timeout. -/
inductive InstrHandle where
  | gpib (board : Nat) (addr : Int) (tmoCode : TimeoutCode)
  | ether (host : List Char) (port : Int) (timeout : ℚ)
  | serial (portName : List Char) (timeout : ℚ)
  deriving DecidableEq

/-- The factory `instrument` of `src/helper/visa.py`: split the address
string on `"::"` into exactly a type token and an address (else the
malformed-address `RuntimeError`), then dispatch case-sensitively on the
type token, falling through to the unsupported-type `ValueError`. -/
def instrument (inst : List Char) (timeout : ℚ) : Except InstrErr InstrHandle :=
  match splitOnDoubleColon inst with
  | [inst_type, address] =>
    if inst_type = "GPIB".data ∨ inst_type = "GPIB0".data then
      match pyInt address with
      | some addr => .ok (.gpib 0 addr (get_gpib_timeout timeout))
      | none => .error (.badInt address)
    else if inst_type = "ETHER".data then
      match splitOnColon address with
      | [addr, port] =>
        match pyInt port with
        | some p => .ok (.ether addr p timeout)
        | none => .error (.badInt port)
      | _ => .error (.etherSplit address)
    else if inst_type = "SERIAL".data then
      .ok (.serial address timeout)
    else
      .error (.unsupported inst)
  | _ => .error (.malformed inst)

/-- `true` exactly when the factory outcome is the unsupported-transport
error. -/
def isUnsupportedError (r : Except InstrErr InstrHandle) : Bool :=
  match r with
  | .error (.unsupported _) => true
  | _ => false

/-- C10: any address string whose `"::"` split yields three or more
tokens is rejected with the malformed-address error before the transport
token is dispatched on. -/
theorem instrument_extra_separator_malformed (s : List Char) (t : ℚ)
    (a b c : List Char) (rest : List (List Char))
    (hsplit : splitOnDoubleColon s = a :: b :: c :: rest) :
    instrument s t = .error (.malformed s) := by
  unfold instrument
  rw [hsplit]

/-- Witness for C10 at the recognized leading token `"ETHER"`:
`"ETHER::host::port"` splits into three tokens and is rejected as
malformed. -/
theorem instrument_extra_separator_malformed_witness :
    splitOnDoubleColon "ETHER::host::port".data =
      ["ETHER".data, "host".data, "port".data] ∧
    instrument "ETHER::host::port".data 10 =
      .error (.malformed "ETHER::host::port".data) :=
  ⟨rfl, instrument_extra_separator_malformed _ 10 _ _ _ _ rfl⟩

/-- Counterexample to C5 as stated: `"FOO::a::b"` has the unrecognized
transport token `"FOO"`, yet the factory raises the malformed-address
error (the split yields three tokens), not the unsupported-transport
error. -/
theorem instrument_unrecognized_token_counterexample :
    (splitOnDoubleColon "FOO::a::b".data).headD [] = "FOO".data ∧
    ("FOO".data ≠ "GPIB".data ∧ "FOO".data ≠ "GPIB0".data ∧
      "FOO".data ≠ "ETHER".data ∧ "FOO".data ≠ "SERIAL".data) ∧
    instrument "FOO::a::b".data 10 = .error (.malformed "FOO::a::b".data) ∧
    isUnsupportedError (instrument "FOO::a::b".data 10) = false :=
  ⟨rfl, by decide, rfl, rfl⟩

/-- C5 (amended): an address string whose `"::"` split yields a single
token (no separator) raises the malformed-address error, and an address
string splitting into exactly a transport token and an address whose
token is none of `GPIB`, `GPIB0`, `ETHER`, `SERIAL` raises the
unsupported-transport error; in both cases no handle is constructed
(strings with two or more separators are malformed regardless of
token). -/
theorem instrument_reject_bad_address :
    (∀ (s : List Char) (t : ℚ) (x : List Char),
      splitOnDoubleColon s = [x] → instrument s t = .error (.malformed s)) ∧
    (∀ (s ty ad : List Char) (t : ℚ),
      splitOnDoubleColon s = [ty, ad] →
      ty ≠ "GPIB".data → ty ≠ "GPIB0".data → ty ≠ "ETHER".data →
      ty ≠ "SERIAL".data →
      instrument s t = .error (.unsupported s)) := by
  constructor
  · intro s t x hsplit
    unfold instrument
    rw [hsplit]
  · intro s ty ad t hsplit h1 h2 h3 h4
    unfold instrument
    rw [hsplit]
    simp only [if_neg (not_or.mpr ⟨h1, h2⟩), if_neg h3, if_neg h4]

/-- Witness for C5: `"GPIB24"` (no separator) is malformed, and
`"TCPIP::x"` (unknown transport token) is unsupported. -/
theorem instrument_reject_bad_address_witness :
    instrument "GPIB24".data 10 = .error (.malformed "GPIB24".data) ∧
    instrument "TCPIP::x".data 10 = .error (.unsupported "TCPIP::x".data) :=
  ⟨instrument_reject_bad_address.1 _ 10 _ rfl,
   instrument_reject_bad_address.2 _ _ _ 10 rfl (by decide) (by decide)
     (by decide) (by decide)⟩

/-- Counterexample to C6 as stated: the single-colon form
`"ETHER::h:5025"` is parsed into host `"h"` and port 5025, but the
double-colon form `"ETHER::h::5025"` is rejected with the
malformed-address error instead of being parsed. -/
theorem instrument_ether_double_colon_counterexample :
    instrument "ETHER::h:5025".data 10 = .ok (.ether "h".data 5025 10) ∧
    instrument "ETHER::h::5025".data 10 =
      .error (.malformed "ETHER::h::5025".data) :=
  ⟨rfl, rfl⟩

/-- C6 (amended): an Ethernet address whose endpoint has the single-colon
form `host:port` (numeric port) is split into host and port and produces
the Ethernet handle with the given timeout; the double-colon port form
splits into three tokens and is rejected as malformed. -/
theorem instrument_ether_port_forms :
    (∀ (s ad host ps : List Char) (p : Int) (t : ℚ),
      splitOnDoubleColon s = ["ETHER".data, ad] →
      splitOnColon ad = [host, ps] →
      pyInt ps = some p →
      instrument s t = .ok (.ether host p t)) ∧
    (∀ (s ad p2 : List Char) (t : ℚ),
      splitOnDoubleColon s = ["ETHER".data, ad, p2] →
      instrument s t = .error (.malformed s)) := by
  constructor
  · intro s ad host ps p t hsplit hps hint
    unfold instrument
    rw [hsplit]
    simp only
      [if_neg (show ¬("ETHER".data = "GPIB".data ∨ "ETHER".data = "GPIB0".data)
         by decide),
       if_pos (rfl : "ETHER".data = "ETHER".data), hps, hint]
    simp
  · intro s ad p2 t hsplit
    unfold instrument
    rw [hsplit]

/-- Witness for C6 at `"ETHER::h:1"`: host `"h"`, port 1. -/
theorem instrument_ether_port_forms_witness :
    instrument "ETHER::h:1".data 10 = .ok (.ether "h".data 1 10) ∧
    instrument "ETHER::x::2".data 10 =
      .error (.malformed "ETHER::x::2".data) :=
  ⟨instrument_ether_port_forms.1 _ _ _ _ 1 10 rfl rfl rfl,
   instrument_ether_port_forms.2 _ _ _ 10 rfl⟩

end InstrumentCom
